import Mathlib

/-!
Verification development for the henhouse monitor (`src/main.py`).

The script is a sequential polling loop: load a YOLO model once, register two
MQTT sensors, then forever: load an image, run detection, count detections by
class name, publish egg/chicken counts, and sleep.  We embed the script
shallowly: Python exceptions become `Except PyErr`, external effects (HTTP
fetch, file read, model inference, MQTT `set_state`) become per-cycle oracle
outcomes recorded in a `CycleEnv`, and observable behaviour (log lines,
published sensor states) becomes a trace of `Event`s.
-/

deriving instance DecidableEq for Except

/-- A Python exception, identified only by its message. -/
abbrev PyErr := String

/-- An opaque decoded image (`PIL.Image.Image`); only its identity matters. -/
abbrev Image := Nat

/-- The pair of MQTT sensor handles returned by `setup_mqtt_sensors`.
The two flags record whether the corresponding `set_state` call would raise
when invoked (broker failure). -/
structure Sensors where
  eggSetFails : Bool
  chickenSetFails : Bool
  deriving DecidableEq, Repr

/-- One raw inference result (`model.predict(image)[0]`): `names` is the
class-id → class-name dictionary of the model, `boxes` the list of detected
boxes, each reduced to its integer class id (`int(box.cls)`). -/
structure InferResult where
  names : List (Nat × String)
  boxes : List Nat
  deriving DecidableEq, Repr

/-- A `CountMap`: Python dict from class name to count, as an ordered
association list. -/
abbrev CountMap := List (String × Nat)

/-- Python dict lookup `m[k]` on a CountMap (`none` models `KeyError`). -/
def lookupS : CountMap → String → Option Nat
  | [], _ => none
  | (k', v) :: rest, k => if k' = k then some v else lookupS rest k

/-- Python dict lookup `names[i]` on the class-name dictionary. -/
def lookupD : List (Nat × String) → Nat → Option String
  | [], _ => none
  | (i', nm) :: rest, i => if i' = i then some nm else lookupD rest i

/-- Python dict assignment `m[k] = v`: overwrite in place, else append. -/
def setS : CountMap → String → Nat → CountMap
  | [], k, v => [(k, v)]
  | (k', v') :: rest, k, v =>
    if k' = k then (k', v) :: rest else (k', v') :: setS rest k v

/-- `{name: 0 for name in result.names.values()}` (src/main.py line 148). -/
def initCounts (names : List (Nat × String)) : CountMap :=
  names.foldl (fun m p => setS m p.2 0) []

/-- The counting loop of `perform_detection` (src/main.py lines 150-153):
for each box, resolve `class_name = result.names[int(box.cls)]` and execute
`counts[class_name] += 1`; a missing key raises `KeyError`. -/
def bumpCounts (names : List (Nat × String)) (counts : CountMap) :
    List Nat → Except PyErr CountMap
  | [] => .ok counts
  | b :: bs =>
    match lookupD names b with
    | none => .error "KeyError"
    | some nm =>
      match lookupS counts nm with
      | none => .error "KeyError"
      | some c => bumpCounts names (setS counts nm (c + 1)) bs

/-- Number of boxes whose resolved class name is exactly `k`. -/
def resolvedCount (names : List (Nat × String)) (k : String) : List Nat → Nat
  | [] => 0
  | b :: bs =>
    (if lookupD names b = some k then 1 else 0) + resolvedCount names k bs

/-- Observable behaviour: log lines and MQTT publications. -/
inductive Event where
  /-- log line `Failed to load image: ...` (src/main.py line 122) -/
  | errLoadImage : Event
  /-- traceback + log line `Detection failed: ...` (lines 163-164) -/
  | errDetection : Event
  /-- log line `Failed to publish to MQTT: ...` (line 102) -/
  | errPublish : Event
  /-- a successful `sensor.set_state(value)` call (lines 98-99) -/
  | setState (sensor : String) (value : Nat) : Event
  /-- log line `Published to MQTT - Eggs: ..., Chickens: ...` (line 100) -/
  | infoPublished (egg chicken : Nat) : Event
  /-- log line `Failed to publish zero counts after detection error` (line 171) -/
  | errZeroPublish : Event
  /-- log line `Error in detection cycle: ...` (line 232) -/
  | errCycle : Event
  /-- log line `Continuing with next cycle...` (line 233) -/
  | infoContinuing : Event
  /-- the `gc.collect()` reclaim hint (line 224) -/
  | gcCollect : Event
  /-- log line `Cycle N: Memory after GC: ...` (line 226) -/
  | memLog (cycle : Nat) : Event
  /-- log line `Received interrupt signal, shutting down...` (line 229) -/
  | shutdownMsg : Event
  /-- log line `=== Henhouse Monitor shutdown completed ===` (line 239) -/
  | shutdownComplete : Event
  /-- the explicit flush of all logging handlers (lines 241-242) -/
  | flushHandlers : Event
  /-- log line `MQTT sensors initialized successfully` (line 88) -/
  | sensorRegistered : Event
  /-- warnings `Failed to initialize MQTT sensors` (lines 201-202) -/
  | warnMqttFailed : Event
  /-- log line `Failed to load YOLO model: ...` (line 136) -/
  | errModelLoad : Event
  /-- log line `Failed to initialize YOLO model: ...` (line 192) -/
  | errInitModel : Event
  deriving DecidableEq, Repr

/-- `publish_counts_to_mqtt(sensors, counts)` (src/main.py lines 93-102).
`sensors["eggs"].set_state(counts["egg"])` then
`sensors["chickens"].set_state(counts["chicken"])`; subscripting `None`
raises `TypeError`, a missing count key raises `KeyError`, and a failing
`set_state` raises — all are caught by the function's own handler, which
logs `Failed to publish to MQTT`.  The function itself never raises. -/
def publish_counts_to_mqtt (sensors : Option Sensors) (counts : CountMap) :
    List Event :=
  match sensors with
  | none => [Event.errPublish]
  | some s =>
    match lookupS counts "egg" with
    | none => [Event.errPublish]
    | some e =>
      if s.eggSetFails then [Event.errPublish]
      else
        Event.setState "eggs" e ::
          match lookupS counts "chicken" with
          | none => [Event.errPublish]
          | some c =>
            if s.chickenSetFails then [Event.errPublish]
            else [Event.setState "chickens" c, Event.infoPublished e c]

/-- The fallback branch of `perform_detection` (src/main.py lines 161-172):
log the failure with a traceback, build `zero_counts = {"egg": 0,
"chicken": 0}`, and if `mqtt_sensors` is truthy attempt to publish it
(`publish_counts_to_mqtt` never raises, so line 171 is unreachable). -/
def detectionFallback (sensors : Option Sensors) : CountMap × List Event :=
  let zero_counts : CountMap := [("egg", 0), ("chicken", 0)]
  (zero_counts,
    Event.errDetection ::
      match sensors with
      | none => []
      | some s => publish_counts_to_mqtt (some s) zero_counts)

/-- `perform_detection(model, image, mqtt_sensors)` (src/main.py lines
140-172).  `infer` is the outcome of `model.predict(image, device="cpu")[0]`.
On the success path the count map is initialised to zero for every known
class name, incremented per box, and published; any exception inside the
`try` block (inference failure or a `KeyError` while counting) is caught and
replaced by the zero-count fallback. -/
def perform_detection (infer : Except PyErr InferResult)
    (sensors : Option Sensors) : CountMap × List Event :=
  match infer with
  | .error _ => detectionFallback sensors
  | .ok r =>
    match bumpCounts r.names (initCounts r.names) r.boxes with
    | .error _ => detectionFallback sensors
    | .ok counts => (counts, publish_counts_to_mqtt sensors counts)

/-- Process-wide configuration (src/main.py lines 26-37); only the
image-source mode matters for the embedded behaviour. -/
structure Config where
  imageSource : String
  deriving DecidableEq, Repr

/-- The two image-sourcing strategies of `load_image`. -/
inductive ImageStrategy where
  | fromFile : ImageStrategy
  | fromUrl : ImageStrategy
  deriving DecidableEq, Repr

/-- Strategy selection (src/main.py line 110): `if IMAGE_SOURCE == "url"`
takes the HTTP branch, every other value falls into the `else` file branch. -/
def chooseStrategy (imageSource : String) : ImageStrategy :=
  if imageSource = "url" then ImageStrategy.fromUrl else ImageStrategy.fromFile

/-- Per-cycle external world: the outcome each oracle would produce this
cycle, plus where (if anywhere) a `KeyboardInterrupt` is delivered. -/
structure CycleEnv where
  /-- outcome of `Image.open(IMAGE_FILE)` (line 117) -/
  fileResult : Except PyErr Image
  /-- outcome of the HTTP fetch + decode (lines 112-114) -/
  urlResult : Except PyErr Image
  /-- outcome of `model.predict(image, device="cpu")[0]` (line 147) -/
  infer : Except PyErr InferResult
  /-- interrupt delivered inside the cycle body (the `try` block, lines 208-226) -/
  interruptBody : Bool
  /-- interrupt delivered during `time.sleep(DETECTION_INTERVAL)` (line 237) -/
  interruptSleep : Bool
  deriving DecidableEq, Repr

/-- `load_image()` (src/main.py lines 105-123): pick the strategy from
configuration, and on any failure log `Failed to load image` once and
re-raise. -/
def load_image (cfg : Config) (env : CycleEnv) :
    Except PyErr Image × List Event :=
  let raw :=
    match chooseStrategy cfg.imageSource with
    | ImageStrategy.fromUrl => env.urlResult
    | ImageStrategy.fromFile => env.fileResult
  match raw with
  | .ok img => (.ok img, [])
  | .error e => (.error e, [Event.errLoadImage])

/-- `Except.isOk` specialised to our error type. -/
def isOkE : Except PyErr Image → Bool
  | .ok _ => true
  | .error _ => false

/-- The body of one loop iteration (the `try` block, src/main.py lines
208-226), given the already-incremented cycle counter `n`.  An image-load
failure is caught by the loop-level handler (lines 231-233); on success,
detection and publication never raise, and every tenth cycle runs
`gc.collect()` and logs memory usage.  Returns the events of the body and
whether the body completed without an exception. -/
def cycleBody (cfg : Config) (sensors : Option Sensors) (n : Nat)
    (env : CycleEnv) : List Event × Bool :=
  match load_image cfg env with
  | (.error _, evs) => (evs ++ [Event.errCycle, Event.infoContinuing], false)
  | (.ok _, evs) =>
    let pd := perform_detection env.infer sensors
    let g := if n % 10 = 0 then [Event.gcCollect, Event.memLog n] else []
    (evs ++ pd.2 ++ g, true)

/-- How a (finite prefix of the) monitoring loop ends. -/
inductive LoopExit where
  /-- the fuel ran out: the loop is still running -/
  | running : LoopExit
  /-- `KeyboardInterrupt` caught inside the `try` → `break` (lines 228-230) -/
  | interrupted : LoopExit
  /-- `KeyboardInterrupt` during `time.sleep` (line 237), which sits outside
  the `try`/`except`: the exception propagates out of the loop uncaught -/
  | crashed : LoopExit
  deriving DecidableEq, Repr

/-- The `while True` loop of `main` (src/main.py lines 207-237), run over a
finite list of per-cycle environments.  `cycle_count += 1` (line 209) happens
at the top of the `try` block, before image loading, so the counter advances
on every attempted iteration whether or not the body fails. -/
def runCycles (cfg : Config) (sensors : Option Sensors) :
    Nat → List CycleEnv → List Event × LoopExit
  | _, [] => ([], LoopExit.running)
  | n, env :: rest =>
    if env.interruptBody then ([Event.shutdownMsg], LoopExit.interrupted)
    else
      let body := cycleBody cfg sensors (n + 1) env
      if env.interruptSleep then (body.1, LoopExit.crashed)
      else
        let r := runCycles cfg sensors (n + 1) rest
        (body.1 ++ r.1, r.2)

/-- Startup-time external world. -/
structure StartupEnv where
  /-- outcome of `YOLO('models/henhouse.onnx', task="detect")` (line 132) -/
  modelLoad : Except PyErr Unit
  /-- outcome of `setup_mqtt_sensors()` (line 198) -/
  sensorSetup : Except PyErr Sensors
  deriving DecidableEq, Repr

/-- How `main` ends. -/
inductive MainExit where
  /-- model load failed: `return` before the loop (line 193) -/
  | startupAborted : MainExit
  /-- still inside the loop (fuel exhausted) -/
  | running : MainExit
  /-- graceful shutdown: `break`, shutdown log, handler flush (lines 239-242) -/
  | graceful : MainExit
  /-- uncaught `KeyboardInterrupt` escaped the loop: the epilogue is skipped -/
  | crashed : MainExit
  deriving DecidableEq, Repr

/-- `main()` (src/main.py lines 183-242): load the model (fatal on failure,
before sensor registration), attempt sensor registration (non-fatal), run the
loop, and on a graceful `break` log the shutdown-completed line and flush all
logging handlers.  An interrupt escaping from `time.sleep` skips that
epilogue. -/
def mainProg (cfg : Config) (su : StartupEnv) (envs : List CycleEnv) :
    List Event × MainExit :=
  match su.modelLoad with
  | .error _ => ([Event.errModelLoad, Event.errInitModel], MainExit.startupAborted)
  | .ok _ =>
    let reg :=
      match su.sensorSetup with
      | .ok s => ([Event.sensorRegistered], some s)
      | .error _ => ([Event.warnMqttFailed], none)
    let r := runCycles cfg reg.2 0 envs
    match r.2 with
    | LoopExit.interrupted =>
      (reg.1 ++ r.1 ++ [Event.shutdownComplete, Event.flushHandlers],
        MainExit.graceful)
    | LoopExit.crashed => (reg.1 ++ r.1, MainExit.crashed)
    | LoopExit.running => (reg.1 ++ r.1, MainExit.running)

/-! ### Association-list lemmas -/

theorem lookupS_setS (m : CountMap) (k : String) (v : Nat) (k' : String) :
    lookupS (setS m k v) k' = if k' = k then some v else lookupS m k' := by
  induction m with
  | nil =>
    by_cases h : k = k'
    · subst h; simp [setS, lookupS]
    · simp [setS, lookupS, h, Ne.symm h]
  | cons p rest ih =>
    obtain ⟨pk, pv⟩ := p
    by_cases hpk : pk = k
    · subst hpk
      by_cases h : pk = k'
      · subst h; simp [setS, lookupS]
      · simp [setS, lookupS, h, Ne.symm h]
    · by_cases h1 : pk = k'
      · subst h1
        simp [setS, lookupS, hpk, Ne.symm hpk]
      · simp [setS, lookupS, hpk, h1, ih]

theorem initCounts_foldl_lookup (names : List (Nat × String)) :
    ∀ (m : CountMap) (k : String),
      lookupS (names.foldl (fun m p => setS m p.2 0) m) k =
        if k ∈ names.map Prod.snd then some 0 else lookupS m k := by
  induction names with
  | nil => intro m k; simp
  | cons p rest ih =>
    intro m k
    by_cases h : k ∈ rest.map Prod.snd
    · simp [List.foldl_cons, ih, h]
    · by_cases hp : k = p.2
      · simp [List.foldl_cons, ih, h, hp, lookupS_setS]
      · simp [List.foldl_cons, ih, h, hp, lookupS_setS, Ne.symm hp]

/-- `initCounts` holds exactly the class names the model knows, all at 0. -/
theorem initCounts_lookup (names : List (Nat × String)) (k : String) :
    lookupS (initCounts names) k =
      if k ∈ names.map Prod.snd then some 0 else none := by
  simpa [initCounts, lookupS] using initCounts_foldl_lookup names [] k

theorem lookupD_mem {names : List (Nat × String)} {b : Nat} {nm : String}
    (h : lookupD names b = some nm) : nm ∈ names.map Prod.snd := by
  induction names with
  | nil => simp [lookupD] at h
  | cons p rest ih =>
    obtain ⟨pk, pv⟩ := p
    simp only [lookupD] at h
    by_cases hp : pk = b
    · simp [hp] at h
      simp [h]
    · simp [hp] at h
      simp [ih h]

/-- Correctness of the counting loop: if every box resolves to a class name
present in the accumulator, the loop succeeds and adds, per key, the number
of boxes resolving to that key. -/
theorem bumpCounts_ok (names : List (Nat × String)) :
    ∀ (boxes : List Nat) (m : CountMap),
      (∀ b ∈ boxes, ∃ nm, lookupD names b = some nm ∧
          (lookupS m nm).isSome = true) →
      ∃ m', bumpCounts names m boxes = .ok m' ∧
        ∀ k, lookupS m' k =
          (lookupS m k).map (· + resolvedCount names k boxes) := by
  intro boxes
  induction boxes with
  | nil =>
    intro m _
    refine ⟨m, rfl, ?_⟩
    intro k
    cases h : lookupS m k <;> simp [resolvedCount]
  | cons b bs ih =>
    intro m hall
    obtain ⟨nm, hnm, hsome⟩ := hall b (List.mem_cons_self b bs)
    obtain ⟨c, hc⟩ := Option.isSome_iff_exists.mp hsome
    have hrec := ih (setS m nm (c + 1)) ?_
    · obtain ⟨m', hm', hlook⟩ := hrec
      refine ⟨m', ?_, ?_⟩
      · simp [bumpCounts, hnm, hc, hm']
      · intro k
        have := hlook k
        rw [this, lookupS_setS]
        by_cases hk : k = nm
        · subst hk
          simp [hc, resolvedCount, hnm, Nat.add_assoc, Nat.add_comm 1]
        · have : ¬ lookupD names b = some k := by
            rw [hnm]; simp; intro h; exact hk h.symm
          cases hmk : lookupS m k <;> simp [hk, resolvedCount, this]
    · intro b' hb'
      obtain ⟨nm', hnm', hsome'⟩ := hall b' (List.mem_cons_of_mem b hb')
      refine ⟨nm', hnm', ?_⟩
      rw [lookupS_setS]
      by_cases hk : nm' = nm <;> simp [hk, hsome']

/-! ### Event classification helpers -/

/-- Events that `publish_counts_to_mqtt` can emit. -/
def isPubEvent : Event → Bool
  | Event.errPublish => true
  | Event.setState _ _ => true
  | Event.infoPublished _ _ => true
  | _ => false

/-- Events that `perform_detection` can emit. -/
def isDetEvent (e : Event) : Bool :=
  isPubEvent e || (e == Event.errDetection)

/-- Events of the shutdown path (lines 229, 239, 241-242). -/
def isShutdownEvent : Event → Bool
  | Event.shutdownMsg => true
  | Event.shutdownComplete => true
  | Event.flushHandlers => true
  | _ => false

/-- Is this event a successful `set_state` call? -/
def isSetStateEvent : Event → Bool
  | Event.setState _ _ => true
  | _ => false

/-- Does a trace contain any successful `set_state` call? -/
def hasSetState (evs : List Event) : Bool :=
  evs.any isSetStateEvent

theorem publish_events_shape (sensors : Option Sensors) (counts : CountMap) :
    ∀ e ∈ publish_counts_to_mqtt sensors counts, isPubEvent e = true := by
  cases sensors with
  | none => simp [publish_counts_to_mqtt, isPubEvent]
  | some s =>
    obtain ⟨ef, cf⟩ := s
    cases ef <;> cases cf <;>
      cases h1 : lookupS counts "egg" <;>
      cases h2 : lookupS counts "chicken" <;>
      simp [publish_counts_to_mqtt, h1, h2, isPubEvent]

theorem pd_events_shape (infer : Except PyErr InferResult)
    (sensors : Option Sensors) :
    ∀ e ∈ (perform_detection infer sensors).2, isDetEvent e = true := by
  have hpub : ∀ m e, e ∈ publish_counts_to_mqtt sensors m → isDetEvent e = true := by
    intro m e he
    simp [isDetEvent, publish_events_shape sensors m e he]
  have hfall : ∀ e ∈ (detectionFallback sensors).2, isDetEvent e = true := by
    intro e he
    cases sensors with
    | none =>
      simp [detectionFallback] at he
      simp [he, isDetEvent, isPubEvent]
    | some s =>
      simp [detectionFallback] at he
      rcases he with he | he
      · simp [he, isDetEvent, isPubEvent]
      · exact hpub _ e he
  cases infer with
  | error err => exact hfall
  | ok r =>
    cases hb : bumpCounts r.names (initCounts r.names) r.boxes with
    | error e' =>
      intro e he
      simp only [perform_detection, hb] at he
      exact hfall e he
    | ok counts =>
      intro e he
      simp only [perform_detection, hb] at he
      exact hpub counts e he

theorem pd_none_shape (infer : Except PyErr InferResult) :
    (perform_detection infer none).2 = [Event.errDetection] ∨
    (perform_detection infer none).2 = [Event.errPublish] := by
  cases infer with
  | error err => left; simp [perform_detection, detectionFallback]
  | ok r =>
    cases hb : bumpCounts r.names (initCounts r.names) r.boxes with
    | error e' => left; simp [perform_detection, hb, detectionFallback]
    | ok counts => right; simp [perform_detection, hb, publish_counts_to_mqtt]

/-! ### Structural lemmas about `load_image`, `cycleBody` and `runCycles` -/

theorem load_image_fst (cfg : Config) (env : CycleEnv) :
    (load_image cfg env).1 =
      match chooseStrategy cfg.imageSource with
      | ImageStrategy.fromUrl => env.urlResult
      | ImageStrategy.fromFile => env.fileResult := by
  unfold load_image
  cases chooseStrategy cfg.imageSource <;>
    [cases env.fileResult; cases env.urlResult] <;> rfl

theorem load_image_shape (cfg : Config) (env : CycleEnv) :
    (∃ img, load_image cfg env = (.ok img, [])) ∨
    (∃ e, load_image cfg env = (.error e, [Event.errLoadImage])) := by
  unfold load_image
  cases chooseStrategy cfg.imageSource <;>
    [cases h : env.fileResult; cases h : env.urlResult] <;> simp

theorem load_image_shape_ok (cfg : Config) (env : CycleEnv)
    (h : isOkE (load_image cfg env).1 = true) :
    ∃ img, load_image cfg env = (.ok img, []) := by
  rcases load_image_shape cfg env with ⟨img, hi⟩ | ⟨e, he⟩
  · exact ⟨img, hi⟩
  · rw [he] at h; simp [isOkE] at h

theorem load_image_shape_err (cfg : Config) (env : CycleEnv)
    (h : isOkE (load_image cfg env).1 = false) :
    ∃ e, load_image cfg env = (.error e, [Event.errLoadImage]) := by
  rcases load_image_shape cfg env with ⟨img, hi⟩ | ⟨e, he⟩
  · rw [hi] at h; simp [isOkE] at h
  · exact ⟨e, he⟩

/-- A failing cycle body produces exactly the two loop-level log lines after
the single `Failed to load image` line. -/
theorem cycleBody_err (cfg : Config) (sensors : Option Sensors) (n : Nat)
    (env : CycleEnv) (h : isOkE (load_image cfg env).1 = false) :
    cycleBody cfg sensors n env =
      ([Event.errLoadImage, Event.errCycle, Event.infoContinuing], false) := by
  obtain ⟨e, he⟩ := load_image_shape_err cfg env h
  simp [cycleBody, he]

/-- A successful cycle body: detection events, then the tenth-cycle GC pair. -/
theorem cycleBody_ok (cfg : Config) (sensors : Option Sensors) (n : Nat)
    (env : CycleEnv) (h : isOkE (load_image cfg env).1 = true) :
    cycleBody cfg sensors n env =
      ((perform_detection env.infer sensors).2 ++
        (if n % 10 = 0 then [Event.gcCollect, Event.memLog n] else []), true) := by
  obtain ⟨img, hi⟩ := load_image_shape_ok cfg env h
  simp [cycleBody, hi]

theorem cycleBody_no_shutdown (cfg : Config) (sensors : Option Sensors)
    (n : Nat) (env : CycleEnv) :
    ∀ e ∈ (cycleBody cfg sensors n env).1, isShutdownEvent e = false := by
  intro e he
  cases h : isOkE (load_image cfg env).1 with
  | false =>
    rw [cycleBody_err cfg sensors n env h] at he
    simp at he
    rcases he with he | he | he <;> simp [he, isShutdownEvent]
  | true =>
    rw [cycleBody_ok cfg sensors n env h] at he
    simp at he
    rcases he with he | he
    · have := pd_events_shape env.infer sensors e he
      cases e <;> simp [isDetEvent, isPubEvent] at this <;> simp [isShutdownEvent]
    · by_cases hn : n % 10 = 0
      · simp [hn] at he
        rcases he with he | he <;> simp [he, isShutdownEvent]
      · simp [hn] at he

/-- One non-interrupted loop step: the counter advances by one (before image
loading) whether or not the body fails, and the loop continues with the rest. -/
theorem runCycles_step (cfg : Config) (sensors : Option Sensors) (n : Nat)
    (env : CycleEnv) (rest : List CycleEnv)
    (hib : env.interruptBody = false) (his : env.interruptSleep = false) :
    runCycles cfg sensors n (env :: rest) =
      ((cycleBody cfg sensors (n + 1) env).1 ++
          (runCycles cfg sensors (n + 1) rest).1,
        (runCycles cfg sensors (n + 1) rest).2) := by
  simp [runCycles, hib, his]

theorem runCycles_no_interrupt_exit (cfg : Config) (sensors : Option Sensors) :
    ∀ (envs : List CycleEnv) (n : Nat),
      (∀ env ∈ envs, env.interruptBody = false ∧ env.interruptSleep = false) →
      (runCycles cfg sensors n envs).2 = LoopExit.running := by
  intro envs
  induction envs with
  | nil => intro n _; simp [runCycles]
  | cons env rest ih =>
    intro n h
    obtain ⟨hib, his⟩ := h env (List.mem_cons_self env rest)
    rw [runCycles_step cfg sensors n env rest hib his]
    exact ih (n + 1) fun e he => h e (List.mem_cons_of_mem env he)

/-- The loop body never lets an exception escape: the only way the loop can
end with an uncaught exception is a `KeyboardInterrupt` delivered during the
`time.sleep` call, which sits outside the `try`/`except`. -/
theorem runCycles_crash_source (cfg : Config) (sensors : Option Sensors) :
    ∀ (envs : List CycleEnv) (n : Nat),
      (runCycles cfg sensors n envs).2 = LoopExit.crashed →
      ∃ env ∈ envs, env.interruptSleep = true := by
  intro envs
  induction envs with
  | nil => intro n h; simp [runCycles] at h
  | cons env rest ih =>
    intro n h
    by_cases hib : env.interruptBody = true
    · simp [runCycles, hib] at h
    · rw [Bool.not_eq_true] at hib
      by_cases his : env.interruptSleep = true
      · exact ⟨env, List.mem_cons_self env rest, his⟩
      · rw [Bool.not_eq_true] at his
        rw [runCycles_step cfg sensors n env rest hib his] at h
        obtain ⟨e, he, hs⟩ := ih (n + 1) h
        exact ⟨e, List.mem_cons_of_mem env he, hs⟩

/-- Over a prefix of interrupt-free cycles the loop just accumulates cycle
events (none of which are shutdown events) and advances the counter. -/
theorem runCycles_prefix (cfg : Config) (sensors : Option Sensors) :
    ∀ (pre tail : List CycleEnv) (n : Nat),
      (∀ p ∈ pre, p.interruptBody = false ∧ p.interruptSleep = false) →
      ∃ evs,
        runCycles cfg sensors n (pre ++ tail) =
          (evs ++ (runCycles cfg sensors (n + pre.length) tail).1,
            (runCycles cfg sensors (n + pre.length) tail).2) ∧
        ∀ e ∈ evs, isShutdownEvent e = false := by
  intro pre
  induction pre with
  | nil =>
    intro tail n _
    exact ⟨[], by simp, by simp⟩
  | cons p rest ih =>
    intro tail n hpre
    obtain ⟨hib, his⟩ := hpre p (List.mem_cons_self p rest)
    obtain ⟨evs, hevs, hsh⟩ :=
      ih tail (n + 1) fun q hq => hpre q (List.mem_cons_of_mem p hq)
    refine ⟨(cycleBody cfg sensors (n + 1) p).1 ++ evs, ?_, ?_⟩
    · rw [List.cons_append, runCycles_step cfg sensors n p (rest ++ tail) hib his,
        hevs]
      simp [Nat.add_assoc, Nat.add_comm 1 rest.length]
    · intro e he
      rcases List.mem_append.mp he with he | he
      · exact cycleBody_no_shutdown cfg sensors (n + 1) p e he
      · exact hsh e he

/-! ### Claims -/

/-- C1: on a successful detection cycle, `perform_detection` builds a count
map initialised to zero for every class name the model knows and increments
the entry of each detected box's resolved class name, and the published
egg/chicken sensor values equal the number of detections whose class name is
exactly `"egg"`/`"chicken"`; detections of other class names do not affect
the published values. -/
theorem C1_success_counts (r : InferResult) (s : Sensors)
    (hEgg : "egg" ∈ r.names.map Prod.snd)
    (hChk : "chicken" ∈ r.names.map Prod.snd)
    (hBoxes : ∀ b ∈ r.boxes, (lookupD r.names b).isSome = true)
    (hEf : s.eggSetFails = false) (hCf : s.chickenSetFails = false) :
    (∀ k, lookupS (perform_detection (.ok r) (some s)).1 k =
        if k ∈ r.names.map Prod.snd
        then some (resolvedCount r.names k r.boxes) else none) ∧
    (perform_detection (.ok r) (some s)).2 =
      [Event.setState "eggs" (resolvedCount r.names "egg" r.boxes),
       Event.setState "chickens" (resolvedCount r.names "chicken" r.boxes),
       Event.infoPublished (resolvedCount r.names "egg" r.boxes)
         (resolvedCount r.names "chicken" r.boxes)] := by
  have hall : ∀ b ∈ r.boxes, ∃ nm, lookupD r.names b = some nm ∧
      (lookupS (initCounts r.names) nm).isSome = true := by
    intro b hb
    obtain ⟨nm, hnm⟩ := Option.isSome_iff_exists.mp (hBoxes b hb)
    exact ⟨nm, hnm, by rw [initCounts_lookup]; simp [lookupD_mem hnm]⟩
  obtain ⟨m', hm', hlook⟩ :=
    bumpCounts_ok r.names r.boxes (initCounts r.names) hall
  have hlookup : ∀ k, lookupS m' k =
      if k ∈ r.names.map Prod.snd
      then some (resolvedCount r.names k r.boxes) else none := by
    intro k
    rw [hlook k, initCounts_lookup]
    by_cases h : k ∈ r.names.map Prod.snd <;> simp [h]
  constructor
  · intro k
    simp only [perform_detection, hm']
    exact hlookup k
  · have he : lookupS m' "egg" = some (resolvedCount r.names "egg" r.boxes) := by
      rw [hlookup "egg"]; simp [hEgg]
    have hc : lookupS m' "chicken" =
        some (resolvedCount r.names "chicken" r.boxes) := by
      rw [hlookup "chicken"]; simp [hChk]
    simp [perform_detection, hm', publish_counts_to_mqtt, he, hc, hEf, hCf]

/-- Witness for C1 at the spec's scenario: detections
`{egg, egg, egg, chicken, chicken, egg}` publish eggs = 4, chickens = 2. -/
theorem C1_success_counts_witness :
    (perform_detection
        (.ok ⟨[(0, "egg"), (1, "chicken")], [0, 0, 0, 1, 1, 0]⟩)
        (some ⟨false, false⟩)).2 =
      [Event.setState "eggs" 4, Event.setState "chickens" 2,
       Event.infoPublished 4 2] := by
  have h := (C1_success_counts ⟨[(0, "egg"), (1, "chicken")], [0, 0, 0, 1, 1, 0]⟩
    ⟨false, false⟩ (by decide) (by decide) (by decide) rfl rfl).2
  exact h.trans (by decide)

/-- C2: whenever inference raises — or any step of the success path inside
`perform_detection` raises (a `KeyError` in the counting loop) — no exception
propagates: the function returns the fallback CountMap with exactly the two
keys `"egg"` and `"chicken"` both set to zero, regardless of any partial
detection state, and when sensor handles are present it attempts to publish
that fallback (actually setting both sensors to 0 when `set_state` does not
itself fail) before returning it. -/
theorem C2_detection_fallback (infer : Except PyErr InferResult)
    (sensors : Option Sensors)
    (hfail : (∃ err, infer = .error err) ∨
      ∃ r e, infer = .ok r ∧
        bumpCounts r.names (initCounts r.names) r.boxes = .error e) :
    (perform_detection infer sensors).1 = [("egg", 0), ("chicken", 0)] ∧
    (sensors = none →
      (perform_detection infer sensors).2 = [Event.errDetection]) ∧
    (∀ s, sensors = some s →
      (perform_detection infer sensors).2 =
        Event.errDetection ::
          publish_counts_to_mqtt (some s) [("egg", 0), ("chicken", 0)]) ∧
    (∀ s, sensors = some s → s.eggSetFails = false → s.chickenSetFails = false →
      (perform_detection infer sensors).2 =
        [Event.errDetection, Event.setState "eggs" 0,
         Event.setState "chickens" 0, Event.infoPublished 0 0]) := by
  have hpd : perform_detection infer sensors = detectionFallback sensors := by
    rcases hfail with ⟨err, herr⟩ | ⟨r, e, hr, hb⟩
    · rw [herr]; rfl
    · rw [hr]; simp [perform_detection, hb]
  refine ⟨?_, ?_, ?_, ?_⟩
  · rw [hpd]; rfl
  · intro hs; rw [hpd, hs]; rfl
  · intro s hs; rw [hpd, hs]; rfl
  · intro s hs hef hcf
    rw [hpd, hs]
    simp [detectionFallback, publish_counts_to_mqtt, hef, hcf, lookupS]

/-- Witness for C2: a failing inference with healthy sensors returns
`{egg: 0, chicken: 0}` and publishes both zeros. -/
theorem C2_detection_fallback_witness :
    (perform_detection (.error "RuntimeError") (some ⟨false, false⟩)).1 =
        [("egg", 0), ("chicken", 0)] ∧
    (perform_detection (.error "RuntimeError") (some ⟨false, false⟩)).2 =
        [Event.errDetection, Event.setState "eggs" 0,
         Event.setState "chickens" 0, Event.infoPublished 0 0] := by
  have h := C2_detection_fallback (.error "RuntimeError") (some ⟨false, false⟩)
    (Or.inl ⟨"RuntimeError", rfl⟩)
  exact ⟨h.1, h.2.2.2 ⟨false, false⟩ rfl rfl rfl⟩

/-- C9: strategy selection in `load_image` compares `IMAGE_SOURCE` against
the exact string `"url"`: that value (and only that value) selects the
HTTP-fetch strategy, while every other value — misspellings, different
casing, anything — silently falls into the local-file branch. -/
theorem C9_strategy_selection (s : String) (env : CycleEnv) :
    (chooseStrategy s = ImageStrategy.fromUrl ↔ s = "url") ∧
    (s ≠ "url" → chooseStrategy s = ImageStrategy.fromFile ∧
      (load_image ⟨s⟩ env).1 = env.fileResult) ∧
    (s = "url" → (load_image ⟨s⟩ env).1 = env.urlResult) := by
  refine ⟨?_, ?_, ?_⟩
  · constructor
    · intro h
      by_contra hs
      simp [chooseStrategy, hs] at h
    · intro h; simp [chooseStrategy, h]
  · intro h
    refine ⟨by simp [chooseStrategy, h], ?_⟩
    rw [load_image_fst]
    simp [chooseStrategy, h]
  · intro h
    rw [load_image_fst]
    simp [chooseStrategy, h]

/-- Witness for C9: the value `"URL"` (wrong casing) selects the file
strategy; the exact value `"url"` selects the HTTP strategy. -/
theorem C9_strategy_selection_witness :
    chooseStrategy "URL" = ImageStrategy.fromFile ∧
    (load_image ⟨"URL"⟩ ⟨.ok 7, .ok 8, .ok ⟨[], []⟩, false, false⟩).1 =
        Except.ok 7 ∧
    (load_image ⟨"url"⟩ ⟨.ok 7, .ok 8, .ok ⟨[], []⟩, false, false⟩).1 =
        Except.ok 8 := by
  refine ⟨?_, ?_, ?_⟩
  · exact (C9_strategy_selection "URL"
      ⟨.ok 7, .ok 8, .ok ⟨[], []⟩, false, false⟩).2.1 (by decide) |>.1
  · exact (C9_strategy_selection "URL"
      ⟨.ok 7, .ok 8, .ok ⟨[], []⟩, false, false⟩).2.1 (by decide) |>.2
  · exact (C9_strategy_selection "url"
      ⟨.ok 7, .ok 8, .ok ⟨[], []⟩, false, false⟩).2.2 rfl

theorem hasSetState_append (a b : List Event) :
    hasSetState (a ++ b) = (hasSetState a || hasSetState b) :=
  List.any_append

theorem hasSetState_eq_false {evs : List Event} :
    hasSetState evs = false ↔ ∀ e ∈ evs, isSetStateEvent e = false := by
  induction evs with
  | nil => simp [hasSetState]
  | cons e rest ih =>
    simp only [hasSetState, List.any_cons, Bool.or_eq_false_iff,
      List.forall_mem_cons] at ih ⊢
    rw [ih]

theorem cycleBody_none_noSetState (cfg : Config) (n : Nat) (env : CycleEnv) :
    hasSetState (cycleBody cfg none n env).1 = false := by
  cases h : isOkE (load_image cfg env).1 with
  | false => rw [cycleBody_err cfg none n env h]; decide
  | true =>
    rw [cycleBody_ok cfg none n env h]
    simp only [hasSetState_append, Bool.or_eq_false_iff]
    constructor
    · rcases pd_none_shape env.infer with hpd | hpd <;> rw [hpd] <;> decide
    · by_cases hn : n % 10 = 0
      · simp [hn, hasSetState]
        exact ⟨rfl, rfl⟩
      · simp [hn, hasSetState]

theorem runCycles_none_noSetState (cfg : Config) :
    ∀ (envs : List CycleEnv) (n : Nat),
      hasSetState (runCycles cfg none n envs).1 = false := by
  intro envs
  induction envs with
  | nil => intro n; simp [runCycles, hasSetState]
  | cons env rest ih =>
    intro n
    by_cases hib : env.interruptBody = true
    · simp [runCycles, hib, hasSetState]; decide
    · rw [Bool.not_eq_true] at hib
      by_cases his : env.interruptSleep = true
      · simp only [runCycles, hib, his, Bool.false_eq_true, if_false, if_true]
        exact cycleBody_none_noSetState cfg (n + 1) env
      · rw [Bool.not_eq_true] at his
        rw [runCycles_step cfg none n env rest hib his]
        simp only [hasSetState_append, Bool.or_eq_false_iff]
        exact ⟨cycleBody_none_noSetState cfg (n + 1) env, ih (n + 1)⟩

/-- C3: when sensor registration failed at startup (`mqtt_sensors = None`),
no `set_state` call is ever made in any number of cycles, the loop keeps
running in the absence of interrupts, and nothing but a `KeyboardInterrupt`
delivered during `time.sleep` can ever escape the loop. -/
theorem C3_no_sensors_no_publish (cfg : Config) (su : StartupEnv)
    (envs : List CycleEnv) (err : PyErr)
    (hmodel : su.modelLoad = .ok ()) (hreg : su.sensorSetup = .error err) :
    hasSetState (mainProg cfg su envs).1 = false ∧
    ((∀ env ∈ envs, env.interruptBody = false ∧ env.interruptSleep = false) →
      (mainProg cfg su envs).2 = MainExit.running) ∧
    ((mainProg cfg su envs).2 = MainExit.crashed →
      ∃ env ∈ envs, env.interruptSleep = true) := by
  have hn : ∀ e ∈ (runCycles cfg none 0 envs).1, isSetStateEvent e = false := by
    simpa [hasSetState] using runCycles_none_noSetState cfg envs 0
  refine ⟨?_, ?_, ?_⟩
  · simp only [mainProg, hmodel, hreg]
    cases hr : (runCycles cfg none 0 envs).2 with
    | running =>
      rw [hasSetState_eq_false]
      intro e he
      rcases List.mem_append.mp he with he | he
      · simp at he; simp [he, isSetStateEvent]
      · exact hn e he
    | crashed =>
      rw [hasSetState_eq_false]
      intro e he
      rcases List.mem_append.mp he with he | he
      · simp at he; simp [he, isSetStateEvent]
      · exact hn e he
    | interrupted =>
      rw [hasSetState_eq_false]
      intro e he
      rcases List.mem_append.mp he with he | he
      · rcases List.mem_append.mp he with he | he
        · simp at he; simp [he, isSetStateEvent]
        · exact hn e he
      · simp at he
        rcases he with he | he <;> simp [he, isSetStateEvent]
  · intro hno
    have hr := runCycles_no_interrupt_exit cfg none envs 0 hno
    simp [mainProg, hmodel, hreg, hr]
  · intro hcr
    simp only [mainProg, hmodel, hreg] at hcr
    have : (runCycles cfg none 0 envs).2 = LoopExit.crashed := by
      cases hr : (runCycles cfg none 0 envs).2 with
      | running => simp [hr] at hcr
      | interrupted => simp [hr] at hcr
      | crashed => rfl
    exact runCycles_crash_source cfg none envs 0 this

/-- Witness for C3: two ordinary cycles after a failed registration publish
nothing and leave the loop running. -/
theorem C3_no_sensors_no_publish_witness :
    hasSetState (mainProg ⟨"file"⟩ ⟨.ok (), .error "ConnectionRefused"⟩
        [⟨.ok 0, .ok 0, .ok ⟨[(0, "egg"), (1, "chicken")], [0]⟩, false, false⟩,
         ⟨.error "FileNotFoundError", .ok 0,
          .ok ⟨[(0, "egg"), (1, "chicken")], []⟩, false, false⟩]).1 = false ∧
    (mainProg ⟨"file"⟩ ⟨.ok (), .error "ConnectionRefused"⟩
        [⟨.ok 0, .ok 0, .ok ⟨[(0, "egg"), (1, "chicken")], [0]⟩, false, false⟩,
         ⟨.error "FileNotFoundError", .ok 0,
          .ok ⟨[(0, "egg"), (1, "chicken")], []⟩, false, false⟩]).2 =
      MainExit.running := by
  have h := C3_no_sensors_no_publish ⟨"file"⟩ ⟨.ok (), .error "ConnectionRefused"⟩
    [⟨.ok 0, .ok 0, .ok ⟨[(0, "egg"), (1, "chicken")], [0]⟩, false, false⟩,
     ⟨.error "FileNotFoundError", .ok 0,
      .ok ⟨[(0, "egg"), (1, "chicken")], []⟩, false, false⟩]
    "ConnectionRefused" rfl rfl
  exact ⟨h.1, h.2.1 (by decide)⟩

/-- C4: a cycle whose image load raises does not crash the loop: it logs the
image-load failure exactly once (the `Failed to load image` line), falls into
the loop-level handler, and the loop proceeds to the sleep step and to the
next cycle. -/
theorem C4_image_failure_skips_cycle (cfg : Config) (sensors : Option Sensors)
    (n : Nat) (env : CycleEnv) (rest : List CycleEnv)
    (hload : isOkE (load_image cfg env).1 = false)
    (hib : env.interruptBody = false) (his : env.interruptSleep = false) :
    runCycles cfg sensors n (env :: rest) =
      ([Event.errLoadImage, Event.errCycle, Event.infoContinuing] ++
          (runCycles cfg sensors (n + 1) rest).1,
        (runCycles cfg sensors (n + 1) rest).2) ∧
    List.count Event.errLoadImage
      [Event.errLoadImage, Event.errCycle, Event.infoContinuing] = 1 := by
  constructor
  · rw [runCycles_step cfg sensors n env rest hib his,
      cycleBody_err cfg sensors (n + 1) env hload]
  · decide

/-- Witness for C4: a missing-file cycle followed by a healthy cycle logs the
load failure once and continues to the next cycle. -/
theorem C4_image_failure_skips_cycle_witness :
    runCycles ⟨"file"⟩ none 0
        [⟨.error "FileNotFoundError", .ok 0,
          .ok ⟨[(0, "egg"), (1, "chicken")], []⟩, false, false⟩] =
      ([Event.errLoadImage, Event.errCycle, Event.infoContinuing] ++
          (runCycles ⟨"file"⟩ none 1 []).1,
        (runCycles ⟨"file"⟩ none 1 []).2) := by
  exact (C4_image_failure_skips_cycle ⟨"file"⟩ none 0
    ⟨.error "FileNotFoundError", .ok 0,
      .ok ⟨[(0, "egg"), (1, "chicken")], []⟩, false, false⟩ []
    (by decide) rfl rfl).1

theorem pd_no_gcCollect (infer : Except PyErr InferResult)
    (sensors : Option Sensors) :
    Event.gcCollect ∉ (perform_detection infer sensors).2 := by
  intro h
  have := pd_events_shape infer sensors Event.gcCollect h
  simp [isDetEvent, isPubEvent] at this

theorem pd_no_memLog (infer : Except PyErr InferResult)
    (sensors : Option Sensors) (k : Nat) :
    Event.memLog k ∉ (perform_detection infer sensors).2 := by
  intro h
  have := pd_events_shape infer sensors (Event.memLog k) h
  simp [isDetEvent, isPubEvent] at this

/-- C6: the GC hint and the memory log line occur in a cycle body exactly
when the cycle counter is a multiple of 10 AND the body completed (its image
load succeeded); every other cycle emits neither, and when they occur the
memory log line comes right after the reclaim hint, at the end of the body. -/
theorem C6_gc_every_tenth (cfg : Config) (sensors : Option Sensors) (n : Nat)
    (env : CycleEnv) :
    (Event.gcCollect ∈ (cycleBody cfg sensors n env).1 ↔
      n % 10 = 0 ∧ isOkE (load_image cfg env).1 = true) ∧
    (∀ k, Event.memLog k ∈ (cycleBody cfg sensors n env).1 ↔
      k = n ∧ n % 10 = 0 ∧ isOkE (load_image cfg env).1 = true) ∧
    (n % 10 = 0 → isOkE (load_image cfg env).1 = true →
      ∃ pre, (cycleBody cfg sensors n env).1 =
        pre ++ [Event.gcCollect, Event.memLog n]) := by
  cases hok : isOkE (load_image cfg env).1 with
  | false =>
    rw [cycleBody_err cfg sensors n env hok]
    refine ⟨by simp, fun k => by simp, fun _ h => by simp at h⟩
  | true =>
    rw [cycleBody_ok cfg sensors n env hok]
    refine ⟨?_, ?_, ?_⟩
    · constructor
      · intro h
        rcases List.mem_append.mp h with h | h
        · exact absurd h (pd_no_gcCollect env.infer sensors)
        · by_cases hn : n % 10 = 0
          · exact ⟨hn, rfl⟩
          · simp [hn] at h
      · rintro ⟨hn, _⟩
        simp [hn]
    · intro k
      constructor
      · intro h
        rcases List.mem_append.mp h with h | h
        · exact absurd h (pd_no_memLog env.infer sensors k)
        · by_cases hn : n % 10 = 0
          · simp [hn] at h
            exact ⟨h, hn, rfl⟩
          · simp [hn] at h
      · rintro ⟨hk, hn, _⟩
        simp [hn, hk]
    · intro hn _
      exact ⟨(perform_detection env.infer sensors).2, by simp [hn]⟩

/-- Witness for C6: a healthy 10th cycle triggers the GC pair; a healthy 9th
cycle triggers neither. -/
theorem C6_gc_every_tenth_witness :
    Event.gcCollect ∈
      (cycleBody ⟨"file"⟩ none 10
        ⟨.ok 0, .ok 0, .ok ⟨[(0, "egg")], []⟩, false, false⟩).1 ∧
    Event.gcCollect ∉
      (cycleBody ⟨"file"⟩ none 9
        ⟨.ok 0, .ok 0, .ok ⟨[(0, "egg")], []⟩, false, false⟩).1 ∧
    Event.memLog 9 ∉
      (cycleBody ⟨"file"⟩ none 9
        ⟨.ok 0, .ok 0, .ok ⟨[(0, "egg")], []⟩, false, false⟩).1 := by
  refine ⟨?_, ?_, ?_⟩
  · exact (C6_gc_every_tenth ⟨"file"⟩ none 10
      ⟨.ok 0, .ok 0, .ok ⟨[(0, "egg")], []⟩, false, false⟩).1.mpr
      ⟨by decide, by decide⟩
  · intro h
    have := (C6_gc_every_tenth ⟨"file"⟩ none 9
      ⟨.ok 0, .ok 0, .ok ⟨[(0, "egg")], []⟩, false, false⟩).1.mp h
    simp at this
  · intro h
    have := ((C6_gc_every_tenth ⟨"file"⟩ none 9
      ⟨.ok 0, .ok 0, .ok ⟨[(0, "egg")], []⟩, false, false⟩).2.1 9).mp h
    simp at this

/-- C7: if model loading raises at startup, `main` returns before attempting
sensor registration and before the monitoring loop: the whole observable
behaviour is the two model-failure log lines, and no registration, cycle,
publish or GC event ever occurs. -/
theorem C7_model_load_fatal (cfg : Config) (su : StartupEnv)
    (envs : List CycleEnv) (err : PyErr) (h : su.modelLoad = .error err) :
    mainProg cfg su envs =
      ([Event.errModelLoad, Event.errInitModel], MainExit.startupAborted) ∧
    Event.sensorRegistered ∉ (mainProg cfg su envs).1 ∧
    Event.warnMqttFailed ∉ (mainProg cfg su envs).1 ∧
    hasSetState (mainProg cfg su envs).1 = false ∧
    (∀ k, Event.memLog k ∉ (mainProg cfg su envs).1) := by
  have hm : mainProg cfg su envs =
      ([Event.errModelLoad, Event.errInitModel], MainExit.startupAborted) := by
    simp [mainProg, h]
  refine ⟨hm, ?_, ?_, ?_, ?_⟩ <;> rw [hm]
  · decide
  · decide
  · decide
  · intro k; simp

/-- Witness for C7: a concrete failed model load aborts startup. -/
theorem C7_model_load_fatal_witness :
    mainProg ⟨"file"⟩ ⟨.error "FileNotFoundError", .ok ⟨false, false⟩⟩
        [⟨.ok 0, .ok 0, .ok ⟨[(0, "egg")], []⟩, false, false⟩] =
      ([Event.errModelLoad, Event.errInitModel], MainExit.startupAborted) :=
  (C7_model_load_fatal ⟨"file"⟩ ⟨.error "FileNotFoundError", .ok ⟨false, false⟩⟩
    [⟨.ok 0, .ok 0, .ok ⟨[(0, "egg")], []⟩, false, false⟩]
    "FileNotFoundError" rfl).1

/-- C10: the cycle counter is incremented at the top of the `try` block —
before image loading — so it counts attempted iterations: a failed iteration
still advances it; and when an iteration whose counter is a multiple of 10
fails before the GC step, neither the reclaim hint nor the memory log line is
emitted in that iteration. -/
theorem C10_counter_counts_attempts (cfg : Config) (sensors : Option Sensors)
    (n : Nat) (env : CycleEnv) (rest : List CycleEnv)
    (hib : env.interruptBody = false) (his : env.interruptSleep = false) :
    runCycles cfg sensors n (env :: rest) =
      ((cycleBody cfg sensors (n + 1) env).1 ++
          (runCycles cfg sensors (n + 1) rest).1,
        (runCycles cfg sensors (n + 1) rest).2) ∧
    ((n + 1) % 10 = 0 → isOkE (load_image cfg env).1 = false →
      Event.gcCollect ∉ (cycleBody cfg sensors (n + 1) env).1 ∧
      ∀ k, Event.memLog k ∉ (cycleBody cfg sensors (n + 1) env).1) := by
  constructor
  · exact runCycles_step cfg sensors n env rest hib his
  · intro _ hload
    rw [cycleBody_err cfg sensors (n + 1) env hload]
    exact ⟨by decide, fun k => by simp⟩

/-- Witness for C10: cycle 10 with a failing image load advances the counter
(the next cycle is number 11) and emits no GC events. -/
theorem C10_counter_counts_attempts_witness :
    runCycles ⟨"file"⟩ none 9
        [⟨.error "FileNotFoundError", .ok 0, .ok ⟨[(0, "egg")], []⟩,
          false, false⟩] =
      ((cycleBody ⟨"file"⟩ none 10
          ⟨.error "FileNotFoundError", .ok 0, .ok ⟨[(0, "egg")], []⟩,
            false, false⟩).1 ++ (runCycles ⟨"file"⟩ none 10 []).1,
        (runCycles ⟨"file"⟩ none 10 []).2) ∧
    Event.gcCollect ∉
      (cycleBody ⟨"file"⟩ none 10
        ⟨.error "FileNotFoundError", .ok 0, .ok ⟨[(0, "egg")], []⟩,
          false, false⟩).1 := by
  have h := C10_counter_counts_attempts ⟨"file"⟩ none 9
    ⟨.error "FileNotFoundError", .ok 0, .ok ⟨[(0, "egg")], []⟩, false, false⟩
    [] rfl rfl
  exact ⟨h.1, (h.2 (by decide) (by decide)).1⟩

theorem pd_fails_eq (infer : Except PyErr InferResult)
    (sensors : Option Sensors)
    (hfail : (∃ err, infer = .error err) ∨
      ∃ r e, infer = .ok r ∧
        bumpCounts r.names (initCounts r.names) r.boxes = .error e) :
    perform_detection infer sensors = detectionFallback sensors := by
  rcases hfail with ⟨err, herr⟩ | ⟨r, e, hr, hb⟩
  · rw [herr]; rfl
  · rw [hr]; simp [perform_detection, hb]

theorem fallback_events_healthy (s : Sensors) (hef : s.eggSetFails = false)
    (hcf : s.chickenSetFails = false) :
    (detectionFallback (some s)).2 =
      [Event.errDetection, Event.setState "eggs" 0,
       Event.setState "chickens" 0, Event.infoPublished 0 0] := by
  simp [detectionFallback, publish_counts_to_mqtt, hef, hcf, lookupS]

/-- Counterexample to C5: a cycle that fails during image sourcing — sensors
present and healthy — makes no publish attempt at all: no `set_state` call
happens and `publish_counts_to_mqtt` is never entered (its
`Failed to publish to MQTT` line cannot appear), so the sensor state is left
stale rather than set to the zero-count fallback. -/
theorem C5_counterexample :
    runCycles ⟨"file"⟩ (some ⟨false, false⟩) 0
        [⟨.error "FileNotFoundError", .ok 0,
          .ok ⟨[(0, "egg"), (1, "chicken")], []⟩, false, false⟩] =
      ([Event.errLoadImage, Event.errCycle, Event.infoContinuing],
        LoopExit.running) ∧
    hasSetState [Event.errLoadImage, Event.errCycle, Event.infoContinuing] =
      false ∧
    Event.errPublish ∉
      [Event.errLoadImage, Event.errCycle, Event.infoContinuing] ∧
    Event.errDetection ∉
      [Event.errLoadImage, Event.errCycle, Event.infoContinuing] := by
  decide

/-- C5 as amended: only a cycle that fails *during detection* attempts to
publish the zero-count fallback (publishing both zeros when the sensor
handles are healthy); a cycle that fails during image sourcing skips
detection and publication entirely, leaving the sensor state unchanged. -/
theorem C5_amended_fallback (cfg : Config) (s : Sensors) (n : Nat)
    (env : CycleEnv) :
    (isOkE (load_image cfg env).1 = true →
      ((∃ err, env.infer = .error err) ∨
        ∃ r e, env.infer = .ok r ∧
          bumpCounts r.names (initCounts r.names) r.boxes = .error e) →
      s.eggSetFails = false → s.chickenSetFails = false →
      (cycleBody cfg (some s) n env).1 =
        [Event.errDetection, Event.setState "eggs" 0,
         Event.setState "chickens" 0, Event.infoPublished 0 0] ++
          (if n % 10 = 0 then [Event.gcCollect, Event.memLog n] else [])) ∧
    (isOkE (load_image cfg env).1 = false →
      (cycleBody cfg (some s) n env).1 =
        [Event.errLoadImage, Event.errCycle, Event.infoContinuing] ∧
      hasSetState (cycleBody cfg (some s) n env).1 = false ∧
      Event.errPublish ∉ (cycleBody cfg (some s) n env).1) := by
  constructor
  · intro hok hfail hef hcf
    rw [cycleBody_ok cfg (some s) n env hok,
      pd_fails_eq env.infer (some s) hfail,
      fallback_events_healthy s hef hcf]
  · intro herr
    have hb := cycleBody_err cfg (some s) n env herr
    rw [hb]
    exact ⟨rfl, by decide, by decide⟩

/-- Witness for the amended C5: a detection failure publishes both zeros; an
image failure publishes nothing. -/
theorem C5_amended_fallback_witness :
    (cycleBody ⟨"file"⟩ (some ⟨false, false⟩) 1
        ⟨.ok 0, .ok 0, .error "RuntimeError", false, false⟩).1 =
      [Event.errDetection, Event.setState "eggs" 0,
       Event.setState "chickens" 0, Event.infoPublished 0 0] ∧
    hasSetState (cycleBody ⟨"file"⟩ (some ⟨false, false⟩) 1
        ⟨.error "FileNotFoundError", .ok 0, .error "RuntimeError",
          false, false⟩).1 = false := by
  constructor
  · have h := (C5_amended_fallback ⟨"file"⟩ ⟨false, false⟩ 1
      ⟨.ok 0, .ok 0, .error "RuntimeError", false, false⟩).1
      (by decide) (Or.inl ⟨"RuntimeError", rfl⟩) rfl rfl
    exact h.trans (by decide)
  · exact ((C5_amended_fallback ⟨"file"⟩ ⟨false, false⟩ 1
      ⟨.error "FileNotFoundError", .ok 0, .error "RuntimeError",
        false, false⟩).2 (by decide)).2.1

theorem noShutdown_not_mem {evs : List Event}
    (h : ∀ e ∈ evs, isShutdownEvent e = false) :
    Event.shutdownMsg ∉ evs ∧ Event.shutdownComplete ∉ evs ∧
      Event.flushHandlers ∉ evs := by
  refine ⟨fun hm => ?_, fun hm => ?_, fun hm => ?_⟩ <;>
    simpa [isShutdownEvent] using h _ hm

/-- Counterexample to C8: an interrupt delivered during the inter-cycle
`time.sleep` — the place an interrupt is most likely to land, since the
process spends almost all its time there — escapes the loop uncaught
(`time.sleep` sits outside the `try`/`except KeyboardInterrupt`): the
process crashes without logging any shutdown message and without flushing
the logging handlers. -/
theorem C8_counterexample :
    (mainProg ⟨"file"⟩ ⟨.ok (), .ok ⟨false, false⟩⟩
        [⟨.ok 0, .ok 0, .ok ⟨[(0, "egg"), (1, "chicken")], []⟩,
          false, true⟩]).2 = MainExit.crashed ∧
    Event.shutdownMsg ∉
      (mainProg ⟨"file"⟩ ⟨.ok (), .ok ⟨false, false⟩⟩
        [⟨.ok 0, .ok 0, .ok ⟨[(0, "egg"), (1, "chicken")], []⟩,
          false, true⟩]).1 ∧
    Event.shutdownComplete ∉
      (mainProg ⟨"file"⟩ ⟨.ok (), .ok ⟨false, false⟩⟩
        [⟨.ok 0, .ok 0, .ok ⟨[(0, "egg"), (1, "chicken")], []⟩,
          false, true⟩]).1 ∧
    Event.flushHandlers ∉
      (mainProg ⟨"file"⟩ ⟨.ok (), .ok ⟨false, false⟩⟩
        [⟨.ok 0, .ok 0, .ok ⟨[(0, "egg"), (1, "chicken")], []⟩,
          false, true⟩]).1 := by
  decide

theorem mainProg_cases (cfg : Config) (su : StartupEnv) (envs : List CycleEnv)
    (hmodel : su.modelLoad = .ok ()) :
    ∃ regEv sensors, isShutdownEvent regEv = false ∧
      ((runCycles cfg sensors 0 envs).2 = LoopExit.interrupted →
        mainProg cfg su envs =
          ([regEv] ++ (runCycles cfg sensors 0 envs).1 ++
              [Event.shutdownComplete, Event.flushHandlers],
            MainExit.graceful)) ∧
      ((runCycles cfg sensors 0 envs).2 = LoopExit.crashed →
        mainProg cfg su envs =
          ([regEv] ++ (runCycles cfg sensors 0 envs).1, MainExit.crashed)) := by
  cases hsu : su.sensorSetup with
  | ok s =>
    refine ⟨Event.sensorRegistered, some s, by decide, ?_, ?_⟩ <;>
      intro h2 <;> simp [mainProg, hmodel, hsu, h2]
  | error e =>
    refine ⟨Event.warnMqttFailed, none, by decide, ?_, ?_⟩ <;>
      intro h2 <;> simp [mainProg, hmodel, hsu, h2]

/-- C8 as amended: a `KeyboardInterrupt` delivered inside the cycle body is
caught, the loop breaks, the shutdown message is logged and all logging
handlers are flushed; but a `KeyboardInterrupt` delivered during the
inter-cycle `time.sleep` (which sits outside the `try`) escapes the loop
uncaught — the loop still ends within that sleep interval, but no shutdown
message is logged and the in-process flush never runs. -/
theorem C8_amended_interrupt (cfg : Config) (su : StartupEnv)
    (pre : List CycleEnv) (env : CycleEnv) (rest : List CycleEnv)
    (hmodel : su.modelLoad = .ok ())
    (hpre : ∀ p ∈ pre, p.interruptBody = false ∧ p.interruptSleep = false) :
    (env.interruptBody = true →
      (mainProg cfg su (pre ++ env :: rest)).2 = MainExit.graceful ∧
      ∃ evs, (mainProg cfg su (pre ++ env :: rest)).1 =
        evs ++ [Event.shutdownMsg, Event.shutdownComplete,
          Event.flushHandlers]) ∧
    (env.interruptBody = false → env.interruptSleep = true →
      (mainProg cfg su (pre ++ env :: rest)).2 = MainExit.crashed ∧
      Event.shutdownMsg ∉ (mainProg cfg su (pre ++ env :: rest)).1 ∧
      Event.shutdownComplete ∉ (mainProg cfg su (pre ++ env :: rest)).1 ∧
      Event.flushHandlers ∉ (mainProg cfg su (pre ++ env :: rest)).1) := by
  obtain ⟨regEv, sensors, hregsh, hint, hcrash⟩ :=
    mainProg_cases cfg su (pre ++ env :: rest) hmodel
  obtain ⟨evs0, hrun, hevs0⟩ :=
    runCycles_prefix cfg sensors pre (env :: rest) 0 hpre
  rw [Nat.zero_add] at hrun
  constructor
  · intro hib
    have htail : runCycles cfg sensors pre.length (env :: rest) =
        ([Event.shutdownMsg], LoopExit.interrupted) := by
      simp [runCycles, hib]
    have h2 : (runCycles cfg sensors 0 (pre ++ env :: rest)).2 =
        LoopExit.interrupted := by
      rw [hrun, htail]
    have hm := hint h2
    refine ⟨by rw [hm], ⟨[regEv] ++ evs0, ?_⟩⟩
    rw [hm]
    show [regEv] ++ (runCycles cfg sensors 0 (pre ++ env :: rest)).1 ++
        [Event.shutdownComplete, Event.flushHandlers] = _
    rw [hrun]
    simp [htail]
  · intro hib his
    have htail : runCycles cfg sensors pre.length (env :: rest) =
        ((cycleBody cfg sensors (pre.length + 1) env).1,
          LoopExit.crashed) := by
      simp [runCycles, hib, his]
    have h2 : (runCycles cfg sensors 0 (pre ++ env :: rest)).2 =
        LoopExit.crashed := by
      rw [hrun, htail]
    have hm := hcrash h2
    have hall : ∀ e ∈ (mainProg cfg su (pre ++ env :: rest)).1,
        isShutdownEvent e = false := by
      rw [hm]
      intro e he
      rcases List.mem_append.mp he with he | he
      · simp at he
        rw [he]
        exact hregsh
      · rw [hrun] at he
        simp only at he
        rcases List.mem_append.mp he with he | he
        · exact hevs0 e he
        · rw [htail] at he
          exact cycleBody_no_shutdown cfg sensors (pre.length + 1) env e he
    obtain ⟨h1, h2', h3⟩ := noShutdown_not_mem hall
    exact ⟨by rw [hm], h1, h2', h3⟩

/-- Witness for the amended C8: with one interrupt-free cycle before it, an
interrupt in the second cycle's body shuts the process down gracefully. -/
theorem C8_amended_interrupt_witness :
    (mainProg ⟨"file"⟩ ⟨.ok (), .ok ⟨false, false⟩⟩
        ([⟨.ok 0, .ok 0, .ok ⟨[(0, "egg"), (1, "chicken")], []⟩,
            false, false⟩] ++
          ⟨.ok 0, .ok 0, .ok ⟨[(0, "egg"), (1, "chicken")], []⟩,
            true, false⟩ :: [])).2 = MainExit.graceful := by
  exact ((C8_amended_interrupt ⟨"file"⟩ ⟨.ok (), .ok ⟨false, false⟩⟩
    [⟨.ok 0, .ok 0, .ok ⟨[(0, "egg"), (1, "chicken")], []⟩, false, false⟩]
    ⟨.ok 0, .ok 0, .ok ⟨[(0, "egg"), (1, "chicken")], []⟩, true, false⟩
    [] rfl (by decide)).1 rfl).1
